import Mathlib

/-!
Verification of the dropback_experiments repository.

The development shallowly embeds the checkpoint-resume logic of
models.py (ExperimentModel.on_load_checkpoint), the momentum-clearing
resume of tl_dropback_experiment.py, the ASHA scheduler configurations
and search spaces of baseline_experiment.py / tl_dropback_experiment.py /
prune_experiment.py, the pruning amount schedule of prune_experiment.py,
and the cifar100 datamodule of datamodules.py, and proves the spec's
claims about them.
-/

namespace DropbackExperiments

/-- A tensor, abstracted to its shape together with an opaque payload of
entries.  Only shapes are inspected by the checkpoint-reconciliation code. -/
structure Tensor where
  shape : List Nat
  data : List Int
deriving DecidableEq, Repr

/-- A state dict: an ordered association of parameter names to tensors,
mirroring a Python dict's insertion order.  Keys are unique in any dict
produced by torch, but no proof below requires that. -/
abbrev StateDict := List (String × Tensor)

/-- First-match lookup in a state dict, mirroring Python dict indexing. -/
def lookupT (k : String) : StateDict → Option Tensor
  | [] => none
  | e :: rest => if e.1 = k then some e.2 else lookupT k rest

/-- The warnings emitted by ExperimentModel.on_load_checkpoint via
rank_zero_info: a skip message naming the key, the live model's (required)
shape and the checkpoint's (loaded) shape, or a dropping message naming
the key (models.py lines 131-138). -/
inductive Warning where
  | skipLoading (key : String) (required : List Nat) (loaded : List Nat)
  | dropping (key : String)
deriving DecidableEq, Repr

/-- One per-parameter momentum entry of an SGD optimizer state, keyed by
parameter index. -/
abbrev MomentumEntry := Nat × Tensor

/-- A param group of a torch optimizer state dict: hyperparameters and the
indices of the parameters it covers. -/
structure ParamGroup where
  lr : ℚ
  momentum : ℚ
  weight_decay : ℚ
  params : List Nat
deriving DecidableEq, Repr

/-- A torch optimizer state dict: the per-parameter state (momentum
buffers) and the param groups. -/
structure OptimizerState where
  state : List MomentumEntry
  param_groups : List ParamGroup
deriving DecidableEq, Repr

/-- A Lightning checkpoint as seen by on_load_checkpoint: the model state
dict, the (possibly already removed) optimizer states, and the epoch. -/
structure Checkpoint where
  state_dict : StateDict
  optimizer_states : Option (List OptimizerState)
  epoch : Nat
deriving DecidableEq, Repr

/-- The per-key update of on_load_checkpoint's loop body (models.py lines
128-135): if the key exists in the live model and shapes differ, the
checkpoint entry is overwritten with the live model's tensor
(state_dict[k] = model_state_dict[k]); otherwise the entry is unchanged. -/
def fixVal (model_sd : StateDict) (k : String) (v : Tensor) : Tensor :=
  match lookupT k model_sd with
  | some mv => if v.shape ≠ mv.shape then mv else v
  | none => v

/-- The state dict after on_load_checkpoint's loop: every entry is updated
in place by fixVal; no entry is added or removed. -/
def reconcileSD (model_sd : StateDict) (sd : StateDict) : StateDict :=
  sd.map fun e => (e.1, fixVal model_sd e.1 e.2)

/-- The warnings logged by on_load_checkpoint's loop, in iteration order
(models.py lines 131-138). -/
def reconcileWarnings (model_sd : StateDict) : StateDict → List Warning
  | [] => []
  | e :: rest =>
    (match lookupT e.1 model_sd with
     | some mv =>
       if e.2.shape ≠ mv.shape then [Warning.skipLoading e.1 mv.shape e.2.shape] else []
     | none => [Warning.dropping e.1]) ++ reconcileWarnings model_sd rest

/-- Whether one loop iteration sets is_changed: true when the key is in the
live model with a different shape, or absent from the live model. -/
def entryChangedB (model_sd : StateDict) (e : String × Tensor) : Bool :=
  match lookupT e.1 model_sd with
  | some mv => decide (e.2.shape ≠ mv.shape)
  | none => true

/-- The final is_changed flag of on_load_checkpoint: whether any iteration
set it (models.py lines 127-139). -/
def reconcileChanged (model_sd : StateDict) (sd : StateDict) : Bool :=
  sd.any (entryChangedB model_sd)

/-- ExperimentModel.on_load_checkpoint (models.py lines 123-142), as a pure
function of the live model's state dict and the checkpoint: updates the
checkpoint's state dict per key, pops optimizer_states when is_changed, and
returns the mutated checkpoint together with the logged warnings.  The
function is total: no input raises. -/
def on_load_checkpoint (model_sd : StateDict) (ckpt : Checkpoint) :
    Checkpoint × List Warning :=
  ({ state_dict := reconcileSD model_sd ckpt.state_dict,
     optimizer_states :=
       if reconcileChanged model_sd ckpt.state_dict then none
       else ckpt.optimizer_states,
     epoch := ckpt.epoch },
   reconcileWarnings model_sd ckpt.state_dict)

/-- Loading a reconciled state dict into the live model
(load_state_dict): every parameter of the live model takes the value the
loaded dict holds for its key, keeping its own value when the key is
absent from the loaded dict. -/
def load_state (model_sd : StateDict) (sd : StateDict) : StateDict :=
  model_sd.map fun e => (e.1, (lookupT e.1 sd).getD e.2)

/-- The checkpoint shape of tl_dropback_experiment.py's manual resume:
torch.load yields a dict whose optimizer_states entry is a list of
optimizer state dicts. -/
structure TLCheckpoint where
  state_dict : StateDict
  optimizer_states : List OptimizerState
deriving DecidableEq, Repr

/-- The momentum-clearing step of tl_dropback_experiment.py line 74:
checkpoint['optimizer_states'][0]['state'] = {} empties the per-parameter
state of the first optimizer state dict and touches nothing else. -/
def clear_momentum (ckpt : TLCheckpoint) : TLCheckpoint :=
  { ckpt with
    optimizer_states :=
      match ckpt.optimizer_states with
      | [] => []
      | os :: rest => { os with state := [] } :: rest }

/-- The optimizer state that trainer.optimizers[0].load_state_dict receives
at tl_dropback_experiment.py line 79: the first cleared optimizer state. -/
def resumed_optimizer (ckpt : TLCheckpoint) : Option OptimizerState :=
  (clear_momentum ckpt).optimizer_states.head?

/-- The configuration of a ray.tune ASHAScheduler as constructed by the
three tune_asha functions: max_t, grace_period and reduction_factor. -/
structure ASHAConfig where
  max_t : Nat
  grace_period : Nat
  reduction_factor : Nat
deriving DecidableEq, Repr

/-- The scheduler constructed in baseline_experiment.py lines 78-81:
grace_period 60, reduction_factor 2, max_t the num_epochs argument. -/
def baseline_tune_asha_scheduler (num_epochs : Nat) : ASHAConfig :=
  { max_t := num_epochs, grace_period := 60, reduction_factor := 2 }

/-- The scheduler constructed in tl_dropback_experiment.py lines 100-103:
grace_period 60, reduction_factor 2, max_t the num_epochs argument. -/
def tl_dropback_tune_asha_scheduler (num_epochs : Nat) : ASHAConfig :=
  { max_t := num_epochs, grace_period := 60, reduction_factor := 2 }

/-- The scheduler constructed in prune_experiment.py lines 84-87:
grace_period 20, reduction_factor 2, max_t the num_epochs argument.
It is built but commented out of tune.run (prune_experiment.py line 115),
so the prune search never early-terminates a trial at all. -/
def prune_tune_asha_scheduler (num_epochs : Nat) : ASHAConfig :=
  { max_t := num_epochs, grace_period := 20, reduction_factor := 2 }

/-- A scheduler decision about a running trial at a report. -/
inductive Decision where
  | continueTrial
  | terminate
deriving DecidableEq, Repr

/-- The training-unit threshold of rung k: grace_period * reduction_factor ^ k.
Modelled from the spec: the training-unit axis is divided into rungs at
grace_period * r^k for k = 0, 1, 2, ... -/
def rungBoundary (cfg : ASHAConfig) (k : Nat) : Nat :=
  cfg.grace_period * cfg.reduction_factor ^ k

/-- Modelled from the spec: the ASHA termination rule of ray.tune's
ASHAScheduler, which is library code not present under src/.  A trial that
has been scored at rungs 0..nextRung-1 and reports at elapsed unit t is
examined only when it has reached the boundary of rung nextRung; it is
terminated exactly when its metric ranks outside the top 1/r fraction of
the peers already scored at that rung (the outsideTopFraction flag);
otherwise, and always before reaching the rung boundary, it continues. -/
def ashaDecision (cfg : ASHAConfig) (t : Nat) (nextRung : Nat)
    (outsideTopFraction : Bool) : Decision :=
  if rungBoundary cfg nextRung ≤ t then
    if outsideTopFraction then Decision.terminate else Decision.continueTrial
  else Decision.continueTrial

/-- A hyperparameter distribution of a ray.tune search space: uniform(lo,hi),
loguniform(lo,hi), or a constant placed verbatim in the config dict. -/
inductive Distribution where
  | uniform (lo hi : ℝ)
  | loguniform (lo hi : ℝ)
  | const (c : ℝ)

/-- Modelled from the spec: the ConfigSampler of ray.tune, which is library
code not present under src/.  For uniform(lo,hi) it draws lo + r*(hi-lo)
with r the unit draw in [0,1]; for loguniform(lo,hi) it draws uniformly in
[log lo, log hi] and exponentiates; a constant is returned verbatim. -/
noncomputable def sample (d : Distribution) (r : ℝ) : ℝ :=
  match d with
  | Distribution.uniform lo hi => lo + r * (hi - lo)
  | Distribution.loguniform lo hi =>
    Real.exp (Real.log lo + r * (Real.log hi - Real.log lo))
  | Distribution.const c => c

/-- Well-formedness of a declared distribution: non-empty range, and a
positive lower bound for the log-uniform case. -/
def wellFormed : Distribution → Prop
  | Distribution.uniform lo hi => lo ≤ hi
  | Distribution.loguniform lo hi => 0 < lo ∧ lo ≤ hi
  | Distribution.const _ => True

/-- The declared bounds a sampled value must satisfy: within [lo,hi] for
uniform and log-uniform entries, equal to the constant otherwise. -/
def inBounds (d : Distribution) (x : ℝ) : Prop :=
  match d with
  | Distribution.uniform lo hi => lo ≤ x ∧ x ≤ hi
  | Distribution.loguniform lo hi => lo ≤ x ∧ x ≤ hi
  | Distribution.const c => x = c

/-- The search space of baseline_experiment.py lines 72-76. -/
noncomputable def baseline_config : List (String × Distribution) :=
  [("lr", Distribution.uniform 0.05 0.25),
   ("momentum", Distribution.uniform 0.8 0.99),
   ("weight_decay", Distribution.loguniform 1e-6 1e-3)]

/-- The numeric entries of the search space of tl_dropback_experiment.py
lines 88-98; the remaining entry "sf" is the boolean constant False,
recorded separately as tl_dropback_sf. -/
noncomputable def tl_dropback_config : List (String × Distribution) :=
  [("lr", Distribution.uniform 0.05 0.3),
   ("momentum", Distribution.uniform 0.8 0.99),
   ("weight_decay", Distribution.loguniform 1e-6 1e-3),
   ("track_size", Distribution.const 111835),
   ("init_decay", Distribution.const 0.995),
   ("q", Distribution.const 0.95),
   ("q_init", Distribution.loguniform 1e-4 1e-2),
   ("q_step", Distribution.loguniform 1e-6 1e-4)]

/-- The boolean constant entry "sf" of the tl_dropback search space. -/
def tl_dropback_sf : Bool := false

/-- The pruning amount schedule of prune_experiment.py line 61:
lambda epoch: 0.1 if epoch % 100 == 0 else 0. -/
def prune_amount (epoch : Nat) : ℚ :=
  if epoch % 100 = 0 then 1 / 10 else 0

/-- Modelled from the spec: the ModelPruning callback (library code not
present under src/) invokes the amount function once per training unit with
that unit's index; the schedule over a run of num_units epochs is therefore
the list of per-epoch amounts. -/
def prune_schedule (num_units : Nat) : List ℚ :=
  (List.range num_units).map prune_amount

/-- cifar100_datamodule (datamodules.py lines 129-157): the constructor
arguments stored on the instance.  The source assigns the labels argument
to the misspelled attribute lables; the field keeps that name. -/
structure Cifar100DataModule where
  data_dir : String := "~/data"
  num_workers : Nat := 8
  batch_size : Nat := 256
  shuffle : Bool := false
  pin_memory : Bool := false
  drop_last : Bool := false
  lables : List Nat := List.range 100
  already_prepared : Bool := false
deriving DecidableEq, Repr

/-- cifar100_datamodule.num_classes (datamodules.py lines 155-157):
len(self.lables), independent of any dataset contents. -/
def num_classes (dm : Cifar100DataModule) : Nat :=
  dm.lables.length

/-- The label tuple training_labels of the experiment scripts. -/
def training_labels : List Nat := [30, 67, 62, 10, 51, 22, 20, 24, 97, 76]

/-- The label tuple training_labels_2 of the experiment scripts. -/
def training_labels_2 : List Nat := [55, 91, 54, 28, 57, 86, 94, 18, 88, 17]

/-- The label tuple target_list of the experiment scripts. -/
def target_list : List Nat := [33, 19, 63, 79, 46, 93, 50, 52, 8, 85]

/-- The label tuple target_list_2 of the experiment scripts. -/
def target_list_2 : List Nat := [49, 15, 66, 99, 98, 29, 74, 47, 58, 89]

/-- The datamodule constructed in baseline_experiment.py line 34. -/
def baseline_dm : Cifar100DataModule :=
  { lables := target_list, already_prepared := true }

/-- The datamodule constructed in tl_dropback_experiment.py line 37. -/
def tl_dropback_dm : Cifar100DataModule :=
  { lables := target_list_2, already_prepared := true }

/-- The datamodule constructed in prune_experiment.py line 30. -/
def prune_dm : Cifar100DataModule :=
  { lables := training_labels, already_prepared := true }

/-- The transform pipeline a dataloader applies (datamodules.py
default_transforms): the augmenting train pipeline (RandomCrop,
RandomHorizontalFlip, ToTensor, cifar10_normalization) or the plain
val pipeline (ToTensor, cifar10_normalization). -/
inductive TransformKind where
  | trainAugment
  | valPlain
deriving DecidableEq, Repr

/-- Everything that determines a DataLoader built by cifar100_datamodule:
the TrialCifar100 dataset arguments and the DataLoader arguments. -/
structure LoaderCfg where
  train : Bool
  download : Bool
  transform : TransformKind
  lables : List Nat
  relabel : Bool
  already_prepared : Bool
  batch_size : Nat
  shuffle : Bool
  num_workers : Nat
  pin_memory : Bool
  drop_last : Bool
deriving DecidableEq, Repr

/-- cifar100_datamodule.train_dataloader (datamodules.py lines 165-178). -/
def train_dataloader (dm : Cifar100DataModule) : LoaderCfg :=
  { train := true, download := false, transform := TransformKind.trainAugment,
    lables := dm.lables, relabel := true, already_prepared := dm.already_prepared,
    batch_size := dm.batch_size, shuffle := dm.shuffle,
    num_workers := dm.num_workers, pin_memory := dm.pin_memory,
    drop_last := dm.drop_last }

/-- cifar100_datamodule.val_dataloader (datamodules.py lines 180-193):
the TrialCifar100 test files (train=False) restricted to dm.lables, with
the plain val transform. -/
def val_dataloader (dm : Cifar100DataModule) : LoaderCfg :=
  { train := false, download := false, transform := TransformKind.valPlain,
    lables := dm.lables, relabel := true, already_prepared := dm.already_prepared,
    batch_size := dm.batch_size, shuffle := dm.shuffle,
    num_workers := dm.num_workers, pin_memory := dm.pin_memory,
    drop_last := dm.drop_last }

/-- cifar100_datamodule.test_dataloader (datamodules.py lines 195-196):
return self.val_dataloader(). -/
def test_dataloader (dm : Cifar100DataModule) : LoaderCfg :=
  val_dataloader dm

/-- A concrete live-model state dict realizing the spec's resume scenario:
the model expects fc.weight of shape (20,5). -/
def sampleModelSD : StateDict :=
  [("fc.weight", { shape := [20, 5], data := [1] })]

/-- A concrete checkpoint realizing the spec's resume scenario: fc.weight
of shape (10,5) plus a persisted optimizer state. -/
def sampleCkpt : Checkpoint :=
  { state_dict := [("fc.weight", { shape := [10, 5], data := [2] })],
    optimizer_states := some [{ state := [(0, { shape := [10, 5], data := [3] })],
                                param_groups := [] }],
    epoch := 3 }

/-- A concrete checkpoint holding a key absent from the live model. -/
def extraKeyCkpt : Checkpoint :=
  { state_dict := [("extra", { shape := [2], data := [1, 2] })],
    optimizer_states := some [{ state := [], param_groups := [] }],
    epoch := 0 }

/-!
Helper lemmas about lookup in mapped state dicts and the warnings of the
reconciliation loop.
-/

/-- Lookup commutes with a key-preserving map over a state dict. -/
theorem lookupT_keyed_map (g : String → Tensor → Tensor) (k : String) :
    ∀ l : StateDict,
      lookupT k (l.map fun e => (e.1, g e.1 e.2)) = (lookupT k l).map (g k) := by
  intro l
  induction l with
  | nil => rfl
  | cons e rest ih =>
    simp only [List.map_cons, lookupT]
    by_cases h : e.1 = k
    · subst h
      simp
    · simp [h, ih]

/-- Lookup in the reconciled state dict is the per-key fix of the lookup
in the checkpoint state dict. -/
theorem lookupT_reconcileSD (msd sd : StateDict) (k : String) :
    lookupT k (reconcileSD msd sd) = (lookupT k sd).map (fixVal msd k) :=
  lookupT_keyed_map (fixVal msd) k sd

/-- Lookup in the loaded model: each model key takes the loaded dict's
value for it when present, keeping its own value otherwise. -/
theorem lookupT_load_state (msd sd : StateDict) (k : String) :
    lookupT k (load_state msd sd)
      = (lookupT k msd).map fun v => (lookupT k sd).getD v :=
  lookupT_keyed_map (fun k0 v => (lookupT k0 sd).getD v) k msd

/-- A successful lookup exhibits a member of the state dict. -/
theorem mem_of_lookupT (k : String) (cv : Tensor) :
    ∀ sd : StateDict, lookupT k sd = some cv → (k, cv) ∈ sd := by
  intro sd
  induction sd with
  | nil => intro h; simp [lookupT] at h
  | cons e rest ih =>
    intro h
    rw [lookupT] at h
    by_cases hk : e.1 = k
    · rw [if_pos hk] at h
      obtain ⟨a, b⟩ := e
      simp only at hk
      cases hk
      cases Option.some.inj h
      exact List.mem_cons_self _ _
    · rw [if_neg hk] at h
      exact List.mem_cons_of_mem _ (ih h)

/-- A shape mismatch on a key present in both dicts puts the skip warning
in the loop's warning list. -/
theorem skip_warning_mem (msd : StateDict) (k : String) (cv mv : Tensor)
    (hm : lookupT k msd = some mv) (hne : cv.shape ≠ mv.shape) :
    ∀ sd : StateDict, lookupT k sd = some cv →
      Warning.skipLoading k mv.shape cv.shape ∈ reconcileWarnings msd sd := by
  intro sd
  induction sd with
  | nil => intro h; simp [lookupT] at h
  | cons e rest ih =>
    intro h
    simp only [reconcileWarnings]
    rw [lookupT] at h
    by_cases hk : e.1 = k
    · rw [if_pos hk] at h
      have hcv : e.2 = cv := Option.some.inj h
      apply List.mem_append_left
      rw [hk, hcv, hm]
      simp [hne]
    · rw [if_neg hk] at h
      exact List.mem_append_right _ (ih h)

/-- A key absent from the live model puts the dropping warning in the
loop's warning list. -/
theorem dropping_warning_mem (msd : StateDict) (k : String) (cv : Tensor)
    (hm : lookupT k msd = none) :
    ∀ sd : StateDict, lookupT k sd = some cv →
      Warning.dropping k ∈ reconcileWarnings msd sd := by
  intro sd
  induction sd with
  | nil => intro h; simp [lookupT] at h
  | cons e rest ih =>
    intro h
    simp only [reconcileWarnings]
    rw [lookupT] at h
    by_cases hk : e.1 = k
    · rw [if_pos hk] at h
      apply List.mem_append_left
      rw [hk, hm]
      simp
    · rw [if_neg hk] at h
      exact List.mem_append_right _ (ih h)

/-- A key absent from the live model sets the is_changed flag. -/
theorem reconcileChanged_of_dropped (msd : StateDict) (k : String) (cv : Tensor)
    (hm : lookupT k msd = none) (sd : StateDict) (hc : lookupT k sd = some cv) :
    reconcileChanged msd sd = true := by
  unfold reconcileChanged
  rw [List.any_eq_true]
  refine ⟨(k, cv), mem_of_lookupT k cv sd hc, ?_⟩
  unfold entryChangedB
  rw [hm]

/-- Claim C1: for every checkpoint loaded into a live model and every
parameter key present in both the checkpoint's state dict and the live
model's state dict, if the shapes match the checkpoint value is loaded;
if the shapes differ the key is skipped, so the live model retains its own
initialized tensor of its own shape, and a warning naming the key and both
shapes is emitted.  No exception is raised: on_load_checkpoint is a total
function. -/
theorem checkpoint_partial_load_per_key (msd : StateDict) (ckpt : Checkpoint)
    (k : String) (cv mv : Tensor)
    (hc : lookupT k ckpt.state_dict = some cv)
    (hm : lookupT k msd = some mv) :
    (cv.shape = mv.shape →
      lookupT k (load_state msd (on_load_checkpoint msd ckpt).1.state_dict)
        = some cv) ∧
    (cv.shape ≠ mv.shape →
      lookupT k (load_state msd (on_load_checkpoint msd ckpt).1.state_dict)
        = some mv ∧
      Warning.skipLoading k mv.shape cv.shape ∈ (on_load_checkpoint msd ckpt).2) := by
  have hsd : (on_load_checkpoint msd ckpt).1.state_dict
      = reconcileSD msd ckpt.state_dict := rfl
  have hws : (on_load_checkpoint msd ckpt).2
      = reconcileWarnings msd ckpt.state_dict := rfl
  have hfix : lookupT k (reconcileSD msd ckpt.state_dict)
      = some (fixVal msd k cv) := by
    rw [lookupT_reconcileSD, hc]
    rfl
  have hload : lookupT k (load_state msd (reconcileSD msd ckpt.state_dict))
      = some (fixVal msd k cv) := by
    rw [lookupT_load_state, hm, hfix]
    rfl
  have hfv_eq : cv.shape = mv.shape → fixVal msd k cv = cv := by
    intro hsh
    unfold fixVal
    rw [hm]
    simp [hsh]
  have hfv_ne : cv.shape ≠ mv.shape → fixVal msd k cv = mv := by
    intro hsh
    unfold fixVal
    rw [hm]
    simp [hsh]
  refine ⟨fun hsh => ?_, fun hsh => ⟨?_, ?_⟩⟩
  · rw [hsd, hload, hfv_eq hsh]
  · rw [hsd, hload, hfv_ne hsh]
  · rw [hws]
    exact skip_warning_mem msd k cv mv hm hsh ckpt.state_dict hc

/-- Claim C1 witness: the spec's scenario, fc.weight of shape (10,5) in the
checkpoint against (20,5) in the live model: the live model keeps its own
tensor and the skip warning is emitted. -/
theorem checkpoint_partial_load_per_key_witness :
    lookupT "fc.weight"
        (load_state sampleModelSD
          (on_load_checkpoint sampleModelSD sampleCkpt).1.state_dict)
      = some { shape := [20, 5], data := [1] } ∧
    Warning.skipLoading "fc.weight" [20, 5] [10, 5]
      ∈ (on_load_checkpoint sampleModelSD sampleCkpt).2 :=
  (checkpoint_partial_load_per_key sampleModelSD sampleCkpt "fc.weight"
    { shape := [10, 5], data := [2] } { shape := [20, 5], data := [1] }
    (by decide) (by decide)).2 (by decide)

/-- Claim C2: the resume discards the checkpoint's persisted optimizer
state if and only if at least one key of the checkpoint state dict had a
shape mismatch or was absent from the live model; when no such change
occurred the optimizer state is left unchanged. -/
theorem optimizer_state_discard_iff_changed (msd : StateDict) (ckpt : Checkpoint)
    (os : List OptimizerState) (hos : ckpt.optimizer_states = some os) :
    ((on_load_checkpoint msd ckpt).1.optimizer_states = none ↔
      ∃ e ∈ ckpt.state_dict, entryChangedB msd e = true) ∧
    ((¬ ∃ e ∈ ckpt.state_dict, entryChangedB msd e = true) →
      (on_load_checkpoint msd ckpt).1.optimizer_states = some os) := by
  have hopt : (on_load_checkpoint msd ckpt).1.optimizer_states
      = if reconcileChanged msd ckpt.state_dict then none
        else ckpt.optimizer_states := rfl
  have hany : reconcileChanged msd ckpt.state_dict = true ↔
      ∃ e ∈ ckpt.state_dict, entryChangedB msd e = true := by
    unfold reconcileChanged
    exact List.any_eq_true
  have hT : reconcileChanged msd ckpt.state_dict = true →
      (on_load_checkpoint msd ckpt).1.optimizer_states = none := by
    intro h
    rw [hopt, h]
    simp
  have hF : reconcileChanged msd ckpt.state_dict = false →
      (on_load_checkpoint msd ckpt).1.optimizer_states = some os := by
    intro h
    rw [hopt, h, hos]
    simp
  refine ⟨⟨fun hnone => ?_, fun hex => hT (hany.mpr hex)⟩, fun hnex => ?_⟩
  · cases hch : reconcileChanged msd ckpt.state_dict
    · exact Option.noConfusion ((hF hch).symm.trans hnone)
    · exact hany.mp hch
  · have hfalse : reconcileChanged msd ckpt.state_dict = false := by
      cases hch : reconcileChanged msd ckpt.state_dict
      · rfl
      · exact absurd (hany.mp hch) hnex
    exact hF hfalse

/-- Claim C2 witness: in the spec's mismatch scenario the persisted
optimizer state is discarded. -/
theorem optimizer_state_discard_iff_changed_witness :
    ((on_load_checkpoint sampleModelSD sampleCkpt).1.optimizer_states = none ↔
      ∃ e ∈ sampleCkpt.state_dict, entryChangedB sampleModelSD e = true) ∧
    ((¬ ∃ e ∈ sampleCkpt.state_dict, entryChangedB sampleModelSD e = true) →
      (on_load_checkpoint sampleModelSD sampleCkpt).1.optimizer_states
        = some [{ state := [(0, { shape := [10, 5], data := [3] })],
                  param_groups := [] }]) :=
  optimizer_state_discard_iff_changed sampleModelSD sampleCkpt
    [{ state := [(0, { shape := [10, 5], data := [3] })], param_groups := [] }]
    rfl

/-- Claim C3: checkpoint resume is deterministic and hence idempotent
across runs: resuming the same checkpoint into two freshly constructed
identical models (equal state dicts) produces identical loaded parameter
values and identical warning lists. -/
theorem checkpoint_resume_deterministic (ckpt : Checkpoint)
    (msd1 msd2 : StateDict) (h : msd1 = msd2) :
    load_state msd1 (on_load_checkpoint msd1 ckpt).1.state_dict
      = load_state msd2 (on_load_checkpoint msd2 ckpt).1.state_dict ∧
    (on_load_checkpoint msd1 ckpt).2 = (on_load_checkpoint msd2 ckpt).2 := by
  subst h
  exact ⟨rfl, rfl⟩

/-- Claim C3 witness: two identical fresh models resume the spec's
scenario checkpoint to identical results and warnings. -/
theorem checkpoint_resume_deterministic_witness :
    load_state sampleModelSD
        (on_load_checkpoint sampleModelSD sampleCkpt).1.state_dict
      = load_state sampleModelSD
          (on_load_checkpoint sampleModelSD sampleCkpt).1.state_dict ∧
    (on_load_checkpoint sampleModelSD sampleCkpt).2
      = (on_load_checkpoint sampleModelSD sampleCkpt).2 :=
  checkpoint_resume_deterministic sampleCkpt sampleModelSD sampleModelSD rfl

/-- Claim C4 counterexample: the claim states a key absent from the live
model "is removed from the load"; but on_load_checkpoint leaves the key in
the checkpoint's state dict (models.py lines 137-139 only log and set
is_changed).  At the concrete input, the key "extra" is still present
after the callback, alongside the dropping warning. -/
theorem dropped_key_not_removed :
    lookupT "extra" (on_load_checkpoint [] extraKeyCkpt).1.state_dict
      = some { shape := [2], data := [1, 2] } ∧
    Warning.dropping "extra" ∈ (on_load_checkpoint [] extraKeyCkpt).2 := by
  decide

/-- Claim C4 as amended: for every key present in the checkpoint's state
dict but absent from the live model's state dict, the resume operation
emits a "dropping parameter" warning naming the key, the key never reaches
the live model's parameters, and the change discards the optimizer state;
the key itself is left in the checkpoint's state dict rather than removed. -/
theorem dropped_key_warned_but_retained (msd : StateDict) (ckpt : Checkpoint)
    (k : String) (cv : Tensor)
    (hm : lookupT k msd = none) (hc : lookupT k ckpt.state_dict = some cv) :
    lookupT k (on_load_checkpoint msd ckpt).1.state_dict = some cv ∧
    lookupT k (load_state msd (on_load_checkpoint msd ckpt).1.state_dict)
      = none ∧
    Warning.dropping k ∈ (on_load_checkpoint msd ckpt).2 ∧
    (on_load_checkpoint msd ckpt).1.optimizer_states = none := by
  have hsd : (on_load_checkpoint msd ckpt).1.state_dict
      = reconcileSD msd ckpt.state_dict := rfl
  have hws : (on_load_checkpoint msd ckpt).2
      = reconcileWarnings msd ckpt.state_dict := rfl
  have hfv : fixVal msd k cv = cv := by
    unfold fixVal
    rw [hm]
  refine ⟨?_, ?_, ?_, ?_⟩
  · rw [hsd, lookupT_reconcileSD, hc]
    simp [hfv]
  · rw [hsd, lookupT_load_state, hm]
    rfl
  · rw [hws]
    exact dropping_warning_mem msd k cv hm ckpt.state_dict hc
  · have hopt : (on_load_checkpoint msd ckpt).1.optimizer_states
        = if reconcileChanged msd ckpt.state_dict then none
          else ckpt.optimizer_states := rfl
    rw [hopt, reconcileChanged_of_dropped msd k cv hm ckpt.state_dict hc]
    simp

/-- Claim C4 witness: the dropped key "extra" triggers the warning, never
reaches the (empty) live model, discards the optimizer state, and stays in
the checkpoint state dict. -/
theorem dropped_key_warned_but_retained_witness :
    lookupT "extra" (on_load_checkpoint [] extraKeyCkpt).1.state_dict
      = some { shape := [2], data := [1, 2] } ∧
    lookupT "extra"
        (load_state [] (on_load_checkpoint [] extraKeyCkpt).1.state_dict)
      = none ∧
    Warning.dropping "extra" ∈ (on_load_checkpoint [] extraKeyCkpt).2 ∧
    (on_load_checkpoint [] extraKeyCkpt).1.optimizer_states = none :=
  dropped_key_warned_but_retained [] extraKeyCkpt "extra"
    { shape := [2], data := [1, 2] } (by decide) (by decide)

/-- Claim C5: the momentum-clearing step of the tl_dropback resume empties
the optimizer's per-parameter state, so resumed training starts with no
momentum, while the param groups (and their hyperparameters) of the loaded
optimizer state, the remaining optimizer states, and the model state dict
are preserved unchanged. -/
theorem momentum_cleared_param_groups_preserved (sd : StateDict)
    (os : OptimizerState) (rest : List OptimizerState) :
    resumed_optimizer { state_dict := sd, optimizer_states := os :: rest }
      = some { state := [], param_groups := os.param_groups } ∧
    (clear_momentum
        { state_dict := sd, optimizer_states := os :: rest }).optimizer_states.tail
      = rest ∧
    (clear_momentum
        { state_dict := sd, optimizer_states := os :: rest }).state_dict = sd :=
  ⟨rfl, rfl, rfl⟩

/-- Claim C6: for every scheduler configuration with reduction factor at
least one and every trial, the ASHA rule never terminates a trial before
grace_period training units have elapsed, regardless of its metric rank;
and the grace periods configured by the three experiments are 60
(baseline), 60 (tl_dropback) and 20 (prune). -/
theorem asha_grace_period_protects (cfg : ASHAConfig) (t nextRung : Nat)
    (outside : Bool) (hr : 1 ≤ cfg.reduction_factor) :
    (ashaDecision cfg t nextRung outside = Decision.terminate →
      cfg.grace_period ≤ t) ∧
    (∀ n, (baseline_tune_asha_scheduler n).grace_period = 60 ∧
      (tl_dropback_tune_asha_scheduler n).grace_period = 60 ∧
      (prune_tune_asha_scheduler n).grace_period = 20) := by
  constructor
  · intro hterm
    unfold ashaDecision at hterm
    by_cases hb : rungBoundary cfg nextRung ≤ t
    · have hpow : 1 ≤ cfg.reduction_factor ^ nextRung :=
        Nat.one_le_pow _ _ hr
      calc cfg.grace_period = cfg.grace_period * 1 := (Nat.mul_one _).symm
        _ ≤ cfg.grace_period * cfg.reduction_factor ^ nextRung :=
            Nat.mul_le_mul_left _ hpow
        _ ≤ t := hb
    · rw [if_neg hb] at hterm
      exact Decision.noConfusion hterm
  · intro n
    exact ⟨rfl, rfl, rfl⟩

/-- Claim C6 witness: the baseline scheduler configuration may terminate a
trial exactly at unit 60, never earlier; and the prune search's scheduler
is configured with grace period 20. -/
theorem asha_grace_period_protects_witness :
    (baseline_tune_asha_scheduler 450).grace_period ≤ 60 ∧
    (prune_tune_asha_scheduler 1000).grace_period = 20 :=
  ⟨(asha_grace_period_protects (baseline_tune_asha_scheduler 450) 60 0 true
      (by decide)).1 (by decide),
   ((asha_grace_period_protects (baseline_tune_asha_scheduler 450) 60 0 true
      (by decide)).2 1000).2.2⟩

/-- Claim C7: every sampled value lies within its declared distribution
bounds: a uniform(lo,hi) entry yields a value in [lo,hi]; a
log-uniform(lo,hi) entry yields the exponential of a value drawn uniformly
in [log lo, log hi], hence a value in [lo,hi]; a constant entry is
returned verbatim.  Moreover every entry of the baseline and tl_dropback
search spaces is well-formed, so the bounds apply to them. -/
theorem sampled_values_within_bounds (d : Distribution) (r : ℝ)
    (h0 : 0 ≤ r) (h1 : r ≤ 1) (hw : wellFormed d) :
    inBounds d (sample d r) ∧
    (∀ lo hi, d = Distribution.loguniform lo hi →
      sample d r = Real.exp (Real.log lo + r * (Real.log hi - Real.log lo))) ∧
    (∀ c, d = Distribution.const c → sample d r = c) ∧
    (∀ e ∈ baseline_config, wellFormed e.2) ∧
    (∀ e ∈ tl_dropback_config, wellFormed e.2) := by
  refine ⟨?_, ?_, ?_, ?_, ?_⟩
  · cases d with
    | uniform lo hi =>
      have hle : lo ≤ hi := hw
      simp only [sample, inBounds]
      constructor
      · nlinarith
      · nlinarith
    | loguniform lo hi =>
      obtain ⟨hlo, hle⟩ := hw
      have hhi : (0 : ℝ) < hi := lt_of_lt_of_le hlo hle
      have hlog : Real.log lo ≤ Real.log hi := Real.log_le_log hlo hle
      simp only [sample, inBounds]
      constructor
      · have hu : Real.log lo ≤ Real.log lo + r * (Real.log hi - Real.log lo) := by
          nlinarith
        calc lo = Real.exp (Real.log lo) := (Real.exp_log hlo).symm
          _ ≤ _ := Real.exp_le_exp.mpr hu
      · have hu : Real.log lo + r * (Real.log hi - Real.log lo) ≤ Real.log hi := by
          nlinarith
        calc Real.exp (Real.log lo + r * (Real.log hi - Real.log lo))
            ≤ Real.exp (Real.log hi) := Real.exp_le_exp.mpr hu
          _ = hi := Real.exp_log hhi
    | const c => simp [sample, inBounds]
  · intro lo hi hd
    subst hd
    rfl
  · intro c hd
    subst hd
    rfl
  · intro e he
    simp only [baseline_config, List.mem_cons, List.not_mem_nil, or_false] at he
    rcases he with rfl | rfl | rfl
    · show (0.05 : ℝ) ≤ 0.25
      norm_num
    · show (0.8 : ℝ) ≤ 0.99
      norm_num
    · exact ⟨by norm_num, by norm_num⟩
  · intro e he
    simp only [tl_dropback_config, List.mem_cons, List.not_mem_nil, or_false] at he
    rcases he with rfl | rfl | rfl | rfl | rfl | rfl | rfl | rfl
    · show (0.05 : ℝ) ≤ 0.3
      norm_num
    · show (0.8 : ℝ) ≤ 0.99
      norm_num
    · exact ⟨by norm_num, by norm_num⟩
    · trivial
    · trivial
    · trivial
    · exact ⟨by norm_num, by norm_num⟩
    · exact ⟨by norm_num, by norm_num⟩

/-- Claim C7 witness: the baseline lr entry uniform(0.05, 0.25) sampled at
the draw 0 yields a value within its declared bounds. -/
theorem sampled_values_within_bounds_witness :
    inBounds (Distribution.uniform 0.05 0.25)
      (sample (Distribution.uniform 0.05 0.25) 0) :=
  (sampled_values_within_bounds (Distribution.uniform 0.05 0.25) 0 le_rfl
    (by norm_num) (by norm_num [wellFormed])).1

/-- Claim C8: the pruning amount schedule is invoked once per training
unit with that unit's index (the schedule over n units is the list of
per-epoch amounts, of length n, whose entry at index e is the amount at
epoch e), and the amount at epoch e is the fraction 1/10 when 100 divides
e (including epoch 0) and 0 otherwise. -/
theorem prune_amount_schedule (e n : Nat) (he : e < n) :
    (prune_schedule n)[e]? = some (prune_amount e) ∧
    (prune_schedule n).length = n ∧
    (100 ∣ e → prune_amount e = 1 / 10) ∧
    (¬ 100 ∣ e → prune_amount e = 0) ∧
    prune_amount 0 = 1 / 10 := by
  refine ⟨?_, ?_, ?_, ?_, rfl⟩
  · unfold prune_schedule
    rw [List.getElem?_map, List.getElem?_range he]
    rfl
  · simp [prune_schedule]
  · intro hdvd
    obtain ⟨c, rfl⟩ := hdvd
    unfold prune_amount
    rw [if_pos (Nat.mul_mod_right 100 c)]
  · intro hnd
    unfold prune_amount
    rw [if_neg fun h => hnd (Nat.dvd_of_mod_eq_zero h)]

/-- Claim C8 witness: in the prune run of 1000 epochs, epoch 0 is pruned
by the fraction 1/10. -/
theorem prune_amount_schedule_witness :
    (prune_schedule 1000)[0]? = some (prune_amount 0) ∧
    prune_amount 0 = 1 / 10 :=
  ⟨(prune_amount_schedule 0 1000 (by decide)).1,
   (prune_amount_schedule 0 1000 (by decide)).2.2.1 ⟨0, rfl⟩⟩

/-- Claim C9: num_classes equals the length of the labels sequence passed
to cifar100_datamodule, counting duplicates and independent of the dataset
contents; with the default labels it is 100, and with the 10-label tuples
of the experiment scripts it is 10. -/
theorem num_classes_eq_labels_length (labels : List Nat)
    (dm : Cifar100DataModule) :
    num_classes { dm with lables := labels } = labels.length ∧
    num_classes {} = 100 ∧
    num_classes baseline_dm = 10 ∧
    num_classes tl_dropback_dm = 10 ∧
    num_classes prune_dm = 10 ∧
    num_classes { lables := [7, 7, 7] } = 3 := by
  refine ⟨rfl, ?_, rfl, rfl, rfl, rfl⟩
  simp [num_classes]

/-- Claim C10: test_dataloader returns exactly the result of
val_dataloader: test evaluation runs on the validation dataset with
identical transforms, batch size, shuffling and worker settings, never on
a separate held-out test split. -/
theorem test_dataloader_eq_val_dataloader (dm : Cifar100DataModule) :
    test_dataloader dm = val_dataloader dm ∧
    (test_dataloader dm).transform = TransformKind.valPlain ∧
    (test_dataloader dm).batch_size = dm.batch_size ∧
    (test_dataloader dm).shuffle = dm.shuffle ∧
    (test_dataloader dm).num_workers = dm.num_workers ∧
    (test_dataloader dm).train = false :=
  ⟨rfl, rfl, rfl, rfl, rfl, rfl⟩

end DropbackExperiments
